import Mathlib

/-!
Verification development for the `gdnative-async` runtime core
(`src/gdnative-async/src/rt.rs`), a cooperative async bridge between
Rust futures and a host scripting runtime.

The file `rt.rs` declares three sibling modules (`future`, `bridge`,
`func_state`) whose sources are not part of the packaged tree; those are
modelled from the design document (sections 4.1-4.3), while everything in
`rt.rs` itself (`Context`, `register_runtime`) is translated directly
from the Rust source.

State that Rust keeps behind shared references (the suspend cells, the
`FuncState` instance, the bridge connections, the process-wide
registration cell) is made explicit as a `World` record threaded through
the operations.
-/

/-- Host value type (`Variant` in the source). The claims only need a few
concrete inhabitants, so a small inductive stands in for the host's
dynamic value. -/
inductive Variant : Type where
  | nil : Variant
  | int : Int → Variant
  | str : String → Variant
deriving DecidableEq, Repr

/-- Modelled from the spec (section 4.1, `SuspendCell<T>`): one suspension
cell holds an `Option`-like payload; it is written at most once and read
at most once. `consumed` records that the paired future already yielded
the value. -/
inductive CellState (α : Type) : Type where
  | pending : CellState α
  | resolved : α → CellState α
  | consumed : CellState α
deriving DecidableEq, Repr

/-- Modelled from the spec (section 4.1): the allocation arena of suspend
cells. A cell id is an index into `cells`; `future::make` appends a fresh
pending cell. -/
structure CellStore (α : Type) : Type where
  cells : List (CellState α)
deriving DecidableEq, Repr

namespace CellStore

/-- Modelled from the spec (section 4.1): `make() -> (Future, Resumer)`
returns a linked pair; here both halves are the id of the fresh cell. -/
def make {α : Type} (s : CellStore α) : Nat × CellStore α :=
  (s.cells.length, ⟨s.cells ++ [CellState.pending]⟩)

/-- Modelled from the spec (section 4.1): `Resumer.resolve(value)` writes
the value if the cell is still pending; a second call on an
already-resolved cell is a silent no-op. -/
def resolve {α : Type} (s : CellStore α) (id : Nat) (v : α) : CellStore α :=
  match s.cells.get? id with
  | some CellState.pending => ⟨s.cells.set id (CellState.resolved v)⟩
  | _ => s

/-- Modelled from the spec (section 4.1): polling the future yields the
value exactly once after resolution, and `none` (pending) otherwise. -/
def poll {α : Type} (s : CellStore α) (id : Nat) : Option α × CellStore α :=
  match s.cells.get? id with
  | some (CellState.resolved v) => (some v, ⟨s.cells.set id CellState.consumed⟩)
  | _ => (none, s)

end CellStore

/-- Modelled from the spec (section 3, `ResumableHandle` state). -/
inductive FuncStatus : Type where
  | Idle : FuncStatus
  | Resumable : FuncStatus
  | Completed : FuncStatus
deriving DecidableEq, Repr

/-- Modelled from the spec (sections 3 and 4.2): the `FuncState` host
object (module `func_state` is not in the packaged tree). `armed` holds
the most recently armed resumer's cell id; `notified` counts the
host-visible "resumable" signal emissions. -/
structure FuncState : Type where
  status : FuncStatus
  armed : Option Nat
  notified : Nat
deriving DecidableEq, Repr

namespace FuncState

/-- Modelled from the spec (section 4.2): `new()` allocates an idle
handle. -/
def new : FuncState := ⟨FuncStatus.Idle, none, 0⟩

end FuncState

/-- Modelled from the spec (section 4.2): `make_resumable(handle, resumer)`
arms the handle with the fresh resumer, transitions to `Resumable`, and
emits the "resumable" signal only when the handle was not already in that
state. -/
def make_resumable (fs : FuncState) (resume : Nat) : FuncState :=
  if fs.status = FuncStatus.Resumable then
    { fs with armed := some resume }
  else
    { fs with status := FuncStatus.Resumable, armed := some resume,
              notified := fs.notified + 1 }

/-- Modelled from the spec (section 4.2): `resolve(handle, value)` — if
armed, forward the value to the current resumer's cell and clear the
armed slot; otherwise a safe no-op. -/
def func_state_resolve (fs : FuncState) (store : CellStore Variant)
    (v : Variant) : FuncState × CellStore Variant :=
  match fs.armed with
  | none => (fs, store)
  | some cid =>
      ({ fs with armed := none, status := FuncStatus.Completed },
       store.resolve cid v)

/-- Error type for failed signal connections (`GodotError` in the
source); only failure is observed by this core. -/
inductive GodotError : Type where
  | FAILED : GodotError
deriving DecidableEq, Repr

/-- An event source: any host object exposing named signals
(spec section 6, event source contract). -/
structure ObjectRef : Type where
  signals : List String
deriving DecidableEq, Repr

/-- Modelled from the spec (section 4.3, `EventBridge`): a one-shot
subscription forwarding a named event's payload into a target cell. -/
structure SignalBridge : Type where
  signal : String
  target : Nat
  live : Bool
deriving DecidableEq, Repr

namespace SignalBridge

/-- Modelled from the spec (section 4.3): `connect` registers the callback
when the named event exists on the source and fails synchronously
otherwise, leaving no partial state. -/
def connect (obj : ObjectRef) (sig : String) (resume : Nat) :
    Except GodotError SignalBridge :=
  if sig ∈ obj.signals then
    Except.ok ⟨sig, resume, true⟩
  else
    Except.error GodotError.FAILED

end SignalBridge

/-- `InitError` (rt.rs lines 22-32): "async runtime must only be
initialized once". -/
structure InitError : Type where
  _private : Unit
deriving DecidableEq, Repr

namespace InitError

/-- `InitError::new` (rt.rs line 29). -/
def new : InitError := ⟨()⟩

end InitError

/-- The host's class registration handle (`InitHandle`); `add_class`
records a registered class name. -/
structure InitHandle : Type where
  classes : List String
deriving DecidableEq, Repr

/-- `InitHandle::add_class::<T>()`: registers the class named `name`. -/
def add_class (h : InitHandle) (name : String) : InitHandle :=
  ⟨h.classes ++ [name]⟩

/-- The process-wide `REGISTRATION: OnceCell<()>` (rt.rs line 20) made
explicit: `registered` is whether the cell has been initialized. -/
structure Registration : Type where
  registered : Bool
deriving DecidableEq, Repr

/-- `register_runtime` (rt.rs lines 110-124): runs the class registration
through the once-cell; returns `Ok` when this call performed the
initialization and `InitError` otherwise. -/
def register_runtime (reg : Registration) (h : InitHandle) :
    Except InitError Unit × Registration × InitHandle :=
  if reg.registered then
    (Except.error InitError.new, reg, h)
  else
    (Except.ok (), ⟨true⟩,
     add_class (add_class h "SignalBridge") "FuncState")

/-- `Context` (rt.rs lines 35-39): owns one shared `FuncState` instance.
The `PhantomData<*const ()>` thread-confinement marker has no value-level
content and is not part of the state. -/
structure Context : Type where
  func_state : FuncState
deriving DecidableEq, Repr

/-- The explicit shared state threaded through the operations: the
context's handle, the suspend-cell arenas (one per payload type used by
the two constructors), and the live bridge connections. -/
structure World : Type where
  ctx : Context
  varStore : CellStore Variant
  vecStore : CellStore (List Variant)
  bridges : List SignalBridge
deriving DecidableEq, Repr

namespace Context

/-- `Context::new` (rt.rs lines 42-47): fresh idle handle, empty world. -/
def newWorld : World :=
  ⟨⟨FuncState.new⟩, ⟨[]⟩, ⟨[]⟩, []⟩

/-- `Context::resolve` (rt.rs lines 63-65): pass-through to
`func_state::resolve` on the owned handle. -/
def resolve (w : World) (v : Variant) : World :=
  { w with ctx := ⟨(func_state_resolve w.ctx.func_state w.varStore v).1⟩,
           varStore := (func_state_resolve w.ctx.func_state w.varStore v).2 }

/-- `Context::until_resume` (rt.rs lines 79-83): make a fresh linked
future/resumer pair, arm the owned handle with the resumer via
`make_resumable`, return the future. -/
def until_resume (w : World) : Nat × World :=
  ((w.varStore.make).1,
   { w with varStore := (w.varStore.make).2,
            ctx := ⟨make_resumable w.ctx.func_state (w.varStore.make).1⟩ })

/-- `Context::signal` (rt.rs lines 96-107): make a fresh linked pair,
connect a `SignalBridge` forwarding the named signal to the resumer, and
return the future; on connection failure the error propagates (`?`) and
the freshly made pair is dropped, leaving the world unchanged. The owned
`func_state` handle is not touched on either path. -/
def signal (w : World) (obj : ObjectRef) (sig : String) :
    Except GodotError Nat × World :=
  match SignalBridge.connect obj sig (w.vecStore.make).1 with
  | Except.error e => (Except.error e, w)
  | Except.ok b =>
      (Except.ok (w.vecStore.make).1,
       { w with vecStore := (w.vecStore.make).2, bridges := w.bridges ++ [b] })

end Context

/-- Modelled from the spec (section 4.3): the host fires the event a live
bridge is subscribed to; the callback writes the payload into the target
cell and immediately unsubscribes (one-shot). `i` indexes the bridge in
the world's connection list. -/
def fireBridge (w : World) (i : Nat) (payload : List Variant) : World :=
  match w.bridges.get? i with
  | some b =>
      if b.live then
        { w with vecStore := w.vecStore.resolve b.target payload,
                 bridges := w.bridges.set i { b with live := false } }
      else w
  | none => w

/-- A concrete host object exposing one signal named "finished", used to
instantiate the general theorems. -/
def objFinished : ObjectRef := ⟨["finished"]⟩

/-- A fresh context world whose handle has been armed once by
`until_resume`. -/
def wArmed : World := (Context.until_resume Context.newWorld).2

/-! ## Helper lemmas -/

theorem list_get_append_length {α : Type} (l : List α) (a : α) :
    (l ++ [a]).get? l.length = some a := by
  induction l with
  | nil => rfl
  | cons x xs ih => exact ih

theorem list_get_append_left {α : Type} (l₁ l₂ : List α) (n : Nat)
    (h : n < l₁.length) : (l₁ ++ l₂).get? n = l₁.get? n := by
  induction l₁ generalizing n with
  | nil => simp at h
  | cons x xs ih =>
      cases n with
      | zero => rfl
      | succ m => simpa using ih m (by simpa using h)

theorem list_set_append_length {α : Type} (l : List α) (a b : α) :
    (l ++ [a]).set l.length b = l ++ [b] := by
  induction l with
  | nil => rfl
  | cons x xs ih => exact congrArg (List.cons x) ih

namespace CellStore

theorem make_fst {α : Type} (s : CellStore α) : s.make.1 = s.cells.length := rfl

theorem make_snd {α : Type} (s : CellStore α) :
    s.make.2 = ⟨s.cells ++ [CellState.pending]⟩ := rfl

theorem resolve_of_pending {α : Type} (s : CellStore α) (id : Nat) (v : α)
    (h : s.cells.get? id = some CellState.pending) :
    s.resolve id v = ⟨s.cells.set id (CellState.resolved v)⟩ := by
  unfold resolve
  rw [h]

theorem resolve_of_resolved {α : Type} (s : CellStore α) (id : Nat) (v u : α)
    (h : s.cells.get? id = some (CellState.resolved v)) :
    s.resolve id u = s := by
  unfold resolve
  rw [h]

theorem poll_of_pending {α : Type} (s : CellStore α) (id : Nat)
    (h : s.cells.get? id = some CellState.pending) :
    s.poll id = (none, s) := by
  unfold poll
  rw [h]

theorem poll_of_resolved {α : Type} (s : CellStore α) (id : Nat) (v : α)
    (h : s.cells.get? id = some (CellState.resolved v)) :
    s.poll id = (some v, ⟨s.cells.set id CellState.consumed⟩) := by
  unfold poll
  rw [h]

theorem poll_of_consumed {α : Type} (s : CellStore α) (id : Nat)
    (h : s.cells.get? id = some CellState.consumed) :
    s.poll id = (none, s) := by
  unfold poll
  rw [h]

theorem make_resolve {α : Type} (s : CellStore α) (v : α) :
    s.make.2.resolve s.make.1 v = ⟨s.cells ++ [CellState.resolved v]⟩ := by
  rw [make_fst, make_snd, resolve_of_pending _ _ _ (list_get_append_length _ _),
      list_set_append_length]

theorem make_resolve_poll {α : Type} (s : CellStore α) (v : α) :
    ((s.make.2.resolve s.make.1 v).poll s.make.1).1 = some v := by
  rw [make_resolve, make_fst,
      poll_of_resolved _ _ v (list_get_append_length _ _)]

theorem poll_old_after_make_resolve {α : Type} (s : CellStore α) (id : Nat)
    (v : α) (hid : s.cells.get? id = some CellState.pending)
    (hlt : id < s.cells.length) :
    ((s.make.2.resolve s.make.1 v).poll id).1 = none := by
  rw [make_resolve]
  have hget : (⟨s.cells ++ [CellState.resolved v]⟩ : CellStore α).cells.get? id
      = some CellState.pending := by
    show (s.cells ++ [CellState.resolved v]).get? id = some CellState.pending
    rw [list_get_append_left _ _ _ hlt]
    exact hid
  rw [poll_of_pending _ _ hget]

end CellStore

theorem make_resumable_armed (fs : FuncState) (r : Nat) :
    (make_resumable fs r).armed = some r := by
  unfold make_resumable
  split <;> rfl

theorem make_resumable_status (fs : FuncState) (r : Nat) :
    (make_resumable fs r).status = FuncStatus.Resumable := by
  unfold make_resumable
  split
  · rename_i h
    exact h
  · rfl

theorem func_state_resolve_unarmed (fs : FuncState) (store : CellStore Variant)
    (v : Variant) (h : fs.armed = none) :
    func_state_resolve fs store v = (fs, store) := by
  unfold func_state_resolve
  rw [h]

theorem func_state_resolve_armed (fs : FuncState) (store : CellStore Variant)
    (v : Variant) (cid : Nat) (h : fs.armed = some cid) :
    func_state_resolve fs store v
      = ({ fs with armed := none, status := FuncStatus.Completed },
         store.resolve cid v) := by
  unfold func_state_resolve
  rw [h]

/-! ## World-level helper lemmas -/

theorem context_resolve_unarmed (w : World) (v : Variant)
    (h : w.ctx.func_state.armed = none) : Context.resolve w v = w := by
  unfold Context.resolve
  rw [func_state_resolve_unarmed _ _ _ h]

theorem context_resolve_armed (w : World) (v : Variant) (cid : Nat)
    (h : w.ctx.func_state.armed = some cid) :
    Context.resolve w v
      = { w with
          ctx := ⟨{ w.ctx.func_state with
                    armed := none
                    status := FuncStatus.Completed }⟩
          varStore := w.varStore.resolve cid v } := by
  unfold Context.resolve
  rw [func_state_resolve_armed _ _ _ _ h]

theorem until_resume_resolve_poll (w : World) (v : Variant) :
    ((Context.resolve (Context.until_resume w).2 v).varStore.poll
        (Context.until_resume w).1).1 = some v := by
  have harm : (Context.until_resume w).2.ctx.func_state.armed
      = some w.varStore.cells.length := make_resumable_armed _ _
  rw [context_resolve_armed _ v _ harm]
  exact CellStore.make_resolve_poll w.varStore v

theorem signal_of_mem (w : World) (obj : ObjectRef) (sig : String)
    (h : sig ∈ obj.signals) :
    Context.signal w obj sig
      = (Except.ok w.vecStore.cells.length,
         { w with vecStore := w.vecStore.make.2,
                  bridges := w.bridges
                    ++ [⟨sig, w.vecStore.cells.length, true⟩] }) := by
  unfold Context.signal SignalBridge.connect
  rw [if_pos h]
  rfl

theorem signal_of_not_mem (w : World) (obj : ObjectRef) (sig : String)
    (h : sig ∉ obj.signals) :
    Context.signal w obj sig = (Except.error GodotError.FAILED, w) := by
  unfold Context.signal SignalBridge.connect
  rw [if_neg h]

/-! ## Claim theorems -/

/-- Claim C1 (counterexample): `Context::signal` does not arm the
Context's owned handle. On a fresh context (handle `Idle`), a successful
`signal` call returns the future, yet the handle stays `Idle` — it is not
transitioned to `Resumable`, and no "resumable" notification is
emitted. -/
theorem C1_counterexample :
    (Context.signal Context.newWorld objFinished "finished").1
        = Except.ok 0 ∧
    (Context.signal Context.newWorld objFinished "finished").2.ctx.func_state.status
        = FuncStatus.Idle ∧
    ¬ (Context.signal Context.newWorld objFinished "finished").2.ctx.func_state.status
        = FuncStatus.Resumable ∧
    (Context.signal Context.newWorld objFinished "finished").2.ctx.func_state.notified
        = Context.newWorld.ctx.func_state.notified :=
  ⟨rfl, rfl, by decide, rfl⟩

/-- Claim C1 (amended): for every world, event source and event name, a
successful `Context::signal` creates a fresh pending suspension cell and
connects an `EventBridge` forwarding the event's payload as the
resumption value, returning the paired future — without arming the
Context's owned handle, whose state is unchanged. -/
theorem C1_signal_connects_bridge (w : World) (obj : ObjectRef)
    (sig : String) (p : List Variant) (h : sig ∈ obj.signals) :
    (Context.signal w obj sig).1 = Except.ok w.vecStore.cells.length ∧
    (Context.signal w obj sig).2.ctx = w.ctx ∧
    (Context.signal w obj sig).2.bridges
      = w.bridges ++ [⟨sig, w.vecStore.cells.length, true⟩] ∧
    ((fireBridge (Context.signal w obj sig).2 w.bridges.length p).vecStore.poll
        w.vecStore.cells.length).1 = some p := by
  have hs := signal_of_mem w obj sig h
  refine ⟨by rw [hs], by rw [hs], by rw [hs], ?_⟩
  rw [hs]
  unfold fireBridge
  have hb : ({ w with
               vecStore := w.vecStore.make.2
               bridges := w.bridges
                 ++ [⟨sig, w.vecStore.cells.length, true⟩] } : World).bridges.get?
      w.bridges.length
      = some ⟨sig, w.vecStore.cells.length, true⟩ :=
    list_get_append_length _ _
  rw [hb]
  show ((w.vecStore.make.2.resolve w.vecStore.cells.length p).poll
      w.vecStore.cells.length).1 = some p
  exact CellStore.make_resolve_poll w.vecStore p

/-- Claim C1 witness: concrete instantiation on a fresh world with the
"finished" signal and the payload from the spec's scenario. -/
theorem C1_witness :
    (Context.signal Context.newWorld objFinished "finished").1
      = Except.ok 0 ∧
    ((fireBridge (Context.signal Context.newWorld objFinished "finished").2 0
        [Variant.str "ok", Variant.int 7]).vecStore.poll 0).1
      = some [Variant.str "ok", Variant.int 7] := by
  have h := C1_signal_connects_bridge Context.newWorld objFinished "finished"
      [Variant.str "ok", Variant.int 7] (by decide)
  exact ⟨h.1, h.2.2.2⟩

/-- Claim C2: in one process lifetime (registration cell starts
uninitialized), the first `register_runtime` call registers the
`SignalBridge` and `FuncState` classes and returns success; every
subsequent call returns `InitError` and changes neither the registration
cell nor the handle it is given. -/
theorem C2_register_runtime_once (h h2 : InitHandle) :
    (register_runtime ⟨false⟩ h).1 = Except.ok () ∧
    (register_runtime ⟨false⟩ h).2.2
      = add_class (add_class h "SignalBridge") "FuncState" ∧
    (register_runtime ⟨false⟩ h).2.1 = ⟨true⟩ ∧
    (register_runtime (register_runtime ⟨false⟩ h).2.1 h2).1
      = Except.error InitError.new ∧
    (register_runtime (register_runtime ⟨false⟩ h).2.1 h2).2.1
      = (register_runtime ⟨false⟩ h).2.1 ∧
    (register_runtime (register_runtime ⟨false⟩ h).2.1 h2).2.2 = h2 :=
  ⟨rfl, rfl, rfl, rfl, rfl, rfl⟩

/-- Claim C3: when the named event does not exist on the source,
`Context::signal` returns the connection error synchronously, leaves the
world (handle, cells, bridges) exactly unchanged, and a subsequent
`until_resume` on the same context works normally: it arms the handle and
resolving then yields the value. -/
theorem C3_connect_failure_no_suspension (w : World) (obj : ObjectRef)
    (sig : String) (v : Variant) (h : sig ∉ obj.signals) :
    (Context.signal w obj sig).1 = Except.error GodotError.FAILED ∧
    (Context.signal w obj sig).2 = w ∧
    ((Context.resolve
        (Context.until_resume (Context.signal w obj sig).2).2 v).varStore.poll
        (Context.until_resume (Context.signal w obj sig).2).1).1 = some v := by
  have hs := signal_of_not_mem w obj sig h
  refine ⟨by rw [hs], by rw [hs], ?_⟩
  rw [hs]
  exact until_resume_resolve_poll w v

/-- Claim C3 witness: concrete instantiation against a source that lacks
the requested signal name. -/
theorem C3_witness :
    (Context.signal Context.newWorld objFinished "missing").1
      = Except.error GodotError.FAILED ∧
    ((Context.resolve
        (Context.until_resume
          (Context.signal Context.newWorld objFinished "missing").2).2
        (Variant.int 42)).varStore.poll
        (Context.until_resume
          (Context.signal Context.newWorld objFinished "missing").2).1).1
      = some (Variant.int 42) := by
  have h := C3_connect_failure_no_suspension Context.newWorld objFinished
      "missing" (Variant.int 42) (by decide)
  exact ⟨h.1, h.2.2⟩

/-- Claim C4: `until_resume` arms the context's owned handle with a fresh
pending resumer (handle armed with the returned future's cell, status
`Resumable`, cell pending) and returns the paired future; a subsequent
resolve of the handle with value `v` makes polling that future yield
`v`. -/
theorem C4_until_resume_arms_and_yields (w : World) (v : Variant) :
    (Context.until_resume w).2.ctx.func_state.armed
      = some (Context.until_resume w).1 ∧
    (Context.until_resume w).2.ctx.func_state.status = FuncStatus.Resumable ∧
    (Context.until_resume w).2.varStore.cells.get? (Context.until_resume w).1
      = some CellState.pending ∧
    ((Context.resolve (Context.until_resume w).2 v).varStore.poll
        (Context.until_resume w).1).1 = some v :=
  ⟨make_resumable_armed _ _, make_resumable_status _ _,
   list_get_append_length _ _, until_resume_resolve_poll w v⟩

/-- Claim C5 (most recent wins): arming the handle twice in sequence
produces distinct futures `f1` then `f2`; resolving the handle with `v`
makes `f2` yield `v`, while polling the superseded `f1` is a safe no-op
that yields nothing (the cell stays pending forever). -/
theorem C5_most_recent_wins (w : World) (v : Variant) :
    (Context.until_resume w).1
        ≠ (Context.until_resume (Context.until_resume w).2).1 ∧
    ((Context.resolve (Context.until_resume (Context.until_resume w).2).2
        v).varStore.poll
        (Context.until_resume (Context.until_resume w).2).1).1 = some v ∧
    ((Context.resolve (Context.until_resume (Context.until_resume w).2).2
        v).varStore.poll (Context.until_resume w).1).1 = none := by
  refine ⟨?_, until_resume_resolve_poll (Context.until_resume w).2 v, ?_⟩
  · have key : w.varStore.cells.length
        ≠ (w.varStore.cells ++ [CellState.pending]).length := by simp
    exact key
  · have harm : (Context.until_resume (Context.until_resume w).2).2.ctx.func_state.armed
        = some (Context.until_resume w).2.varStore.cells.length :=
      make_resumable_armed _ _
    rw [context_resolve_armed _ v _ harm]
    have hpend : (Context.until_resume w).2.varStore.cells.get?
        (Context.until_resume w).1 = some CellState.pending :=
      list_get_append_length _ _
    have hlt : (Context.until_resume w).1
        < (Context.until_resume w).2.varStore.cells.length := by
      show w.varStore.cells.length
          < (w.varStore.cells ++ [CellState.pending]).length
      simp
    exact CellStore.poll_old_after_make_resolve
      (Context.until_resume w).2.varStore (Context.until_resume w).1 v
      hpend hlt

/-- Claim C6: for any suspend cell freshly made in any store, resolving
twice with `a` then `b` leaves the store exactly as after the first
resolve (the second call is a silent no-op), the paired future yields `a`
exactly once, and a second poll after consumption yields nothing. -/
theorem C6_cell_single_resolution (s : CellStore Variant) (a b : Variant) :
    (s.make.2.resolve s.make.1 a).resolve s.make.1 b
      = s.make.2.resolve s.make.1 a ∧
    (((s.make.2.resolve s.make.1 a).resolve s.make.1 b).poll s.make.1).1
      = some a ∧
    ((((s.make.2.resolve s.make.1 a).resolve s.make.1 b).poll s.make.1).2.poll
        s.make.1).1 = none := by
  have h1 : s.make.2.resolve s.make.1 a
      = ⟨s.cells ++ [CellState.resolved a]⟩ := CellStore.make_resolve s a
  have hget : (⟨s.cells ++ [CellState.resolved a]⟩ : CellStore Variant).cells.get?
      s.make.1 = some (CellState.resolved a) :=
    list_get_append_length s.cells (CellState.resolved a)
  have h2 : (⟨s.cells ++ [CellState.resolved a]⟩ : CellStore Variant).resolve
      s.make.1 b = ⟨s.cells ++ [CellState.resolved a]⟩ :=
    CellStore.resolve_of_resolved _ _ a b hget
  have h3 := CellStore.poll_of_resolved
    (⟨s.cells ++ [CellState.resolved a]⟩ : CellStore Variant) s.make.1 a hget
  have hset : (s.cells ++ [CellState.resolved a]).set s.make.1
      CellState.consumed = s.cells ++ [CellState.consumed] :=
    list_set_append_length s.cells (CellState.resolved a) CellState.consumed
  have hcon : (⟨s.cells ++ [CellState.consumed]⟩ : CellStore Variant).cells.get?
      s.make.1 = some CellState.consumed :=
    list_get_append_length s.cells CellState.consumed
  refine ⟨?_, ?_, ?_⟩
  · rw [h1]
    exact h2
  · rw [h1, h2, h3]
  · rw [h1, h2, h3]
    show ((⟨(s.cells ++ [CellState.resolved a]).set s.make.1
        CellState.consumed⟩ : CellStore Variant).poll s.make.1).1 = none
    rw [hset, CellStore.poll_of_consumed _ _ hcon]

/-- Claim C7: resolving the context's handle while it is not armed is a
safe no-op leaving the world unchanged; when it is armed, resolving
forwards the value to the current resumer's cell and clears the armed
slot. -/
theorem C7_resolve_unarmed_noop (w : World) (v : Variant) (cid : Nat) :
    (w.ctx.func_state.armed = none → Context.resolve w v = w) ∧
    (w.ctx.func_state.armed = some cid →
      (Context.resolve w v).ctx.func_state.armed = none ∧
      (Context.resolve w v).varStore = w.varStore.resolve cid v) := by
  constructor
  · exact fun h => context_resolve_unarmed w v h
  · intro h
    rw [context_resolve_armed w v cid h]
    exact ⟨rfl, rfl⟩

/-- Claim C7 witness: resolving a fresh (unarmed) context is a no-op, and
resolving a context armed once by `until_resume` clears the armed
slot. -/
theorem C7_witness :
    Context.resolve Context.newWorld (Variant.int 1) = Context.newWorld ∧
    (Context.resolve wArmed (Variant.int 42)).ctx.func_state.armed = none := by
  constructor
  · exact (C7_resolve_unarmed_noop Context.newWorld (Variant.int 1) 0).1 rfl
  · exact ((C7_resolve_unarmed_noop wArmed (Variant.int 42) 0).2 rfl).1

/-- Claim C8: arming via `make_resumable` always ends in the `Resumable`
state; it emits the host-visible "resumable" notification exactly when
the handle was not already `Resumable` — so re-arming while `Resumable`
does not re-emit, while arming from `Idle` or `Completed` emits a fresh
notification. -/
theorem C8_resumable_notification (fs : FuncState) (r : Nat) :
    (make_resumable fs r).status = FuncStatus.Resumable ∧
    (fs.status = FuncStatus.Resumable →
      (make_resumable fs r).notified = fs.notified) ∧
    (fs.status ≠ FuncStatus.Resumable →
      (make_resumable fs r).notified = fs.notified + 1) := by
  refine ⟨make_resumable_status fs r, ?_, ?_⟩
  · intro h
    unfold make_resumable
    rw [if_pos h]
  · intro h
    unfold make_resumable
    rw [if_neg h]

/-- Claim C8 witness: arming a fresh idle handle emits one notification;
immediately re-arming the now-`Resumable` handle emits none. -/
theorem C8_witness :
    (make_resumable FuncState.new 0).notified = FuncState.new.notified + 1 ∧
    (make_resumable (make_resumable FuncState.new 0) 1).notified
      = (make_resumable FuncState.new 0).notified := by
  constructor
  · exact (C8_resumable_notification FuncState.new 0).2.2 (by decide)
  · exact (C8_resumable_notification (make_resumable FuncState.new 0) 1).2.1 rfl

/-- Claim C9 (frame condition): on both the success and the failure path,
`Context::signal` neither reads nor mutates the context's owned handle —
the `Context` (hence its `FuncState`, including the notification count)
and the handle's own cell arena are returned unchanged. -/
theorem C9_signal_frame (w : World) (obj : ObjectRef) (sig : String) :
    (Context.signal w obj sig).2.ctx = w.ctx ∧
    (Context.signal w obj sig).2.varStore = w.varStore := by
  by_cases h : sig ∈ obj.signals
  · rw [signal_of_mem w obj sig h]
    exact ⟨rfl, rfl⟩
  · rw [signal_of_not_mem w obj sig h]
    exact ⟨rfl, rfl⟩
